import Mathlib

/-!
Verification of the miniflux-ai Cloudflare Worker (`src/lib.rs`).

The Rust source is shallowly embedded: pure logic becomes Lean functions,
and every outbound HTTP interaction is made explicit by threading a "wire"
value describing what the network returned for that call.  A Rust `panic!`
(e.g. `unwrap` on `None`, out-of-bounds indexing) is a distinguished
outcome, separate from a recoverable `Err`.
-/

set_option maxRecDepth 10000

namespace MinifluxAi

/-- Outcome of a Rust computation: `Ok`, `Err(e)` (`Box<dyn Error>` carrying a
message), or a panic (unwinding, never a value). -/
inductive RResult (α : Type) where
  | ok (a : α)
  | err (e : String)
  | panic (msg : String)
deriving DecidableEq, Repr

/-- `struct Feed { site_url: String }` -/
structure Feed where
  site_url : String
deriving DecidableEq, Repr

/-- `struct Entry { id: u64, content: String, feed: Option<Feed> }` -/
structure Entry where
  id : Nat
  content : String
  feed : Option Feed
deriving DecidableEq, Repr

/-- `struct ApiResponse { entries: Vec<Entry> }` -/
structure ApiResponse where
  entries : List Entry
deriving DecidableEq, Repr

/-- `struct WebhookPayload { event_type: String, feed: Feed, entries: Vec<Entry> }` -/
structure WebhookPayload where
  event_type : String
  feed : Feed
  entries : List Entry
deriving DecidableEq, Repr

/-- `struct Message { role: String, content: String }` -/
structure Message where
  role : String
  content : String
deriving DecidableEq, Repr

/-- `struct ChatCompletionChoice { message: Message }` -/
structure ChatCompletionChoice where
  message : Message
deriving DecidableEq, Repr

/-- `struct Miniflux { url, username, password }` -/
structure Miniflux where
  url : String
  username : String
  password : String
deriving DecidableEq, Repr

/-- `struct OpenAi { url, token, model }` -/
structure OpenAi where
  url : String
  token : String
  model : String
deriving DecidableEq, Repr

/-- `struct Config { miniflux, openai, whitelist: HashSet<String> }`.
The `HashSet` is modelled by a list used only through `contains`
(membership), which is exactly the set semantics the source relies on. -/
structure Config where
  miniflux : Miniflux
  openai : OpenAi
  whitelist : List String
deriving DecidableEq, Repr

/-- Rust `str::starts_with`: byte-prefix test.  For whole-`String` patterns
over valid UTF-8 this coincides with the character-list prefix test. -/
def str_starts_with (s pattern : String) : Bool :=
  pattern.data.isPrefixOf s.data

/-- The Unicode `White_Space` code points, the set Rust `char::is_whitespace`
tests. -/
def white_space_codes : List Nat :=
  [0x09, 0x0A, 0x0B, 0x0C, 0x0D, 0x20, 0x85, 0xA0, 0x1680,
   0x2000, 0x2001, 0x2002, 0x2003, 0x2004, 0x2005, 0x2006, 0x2007,
   0x2008, 0x2009, 0x200A, 0x2028, 0x2029, 0x202F, 0x205F, 0x3000]

/-- Rust `char::is_whitespace`. -/
def is_unicode_whitespace (c : Char) : Bool :=
  white_space_codes.contains c.toNat

/-- Rust `str::trim`: strip leading and trailing whitespace. -/
def rust_trim (s : String) : String :=
  String.mk (((s.data.dropWhile is_unicode_whitespace).reverse.dropWhile
      is_unicode_whitespace).reverse)

/-- What the network returned for one `POST {openai}/v1/chat/completions`:
the transport may fail; a success-status body either parses as
`ChatCompletionResponse` (giving its `choices`) or does not; a
failure-status body is read as text (which itself may fail). -/
inductive OpenAiWire where
  | sendErr (e : String)
  | okJson (choices : List ChatCompletionChoice)
  | okBadJson (e : String)
  | errStatus (bodyText : String)
  | errStatusTextErr (e : String)
deriving DecidableEq, Repr

/-- What the network returned for one `PUT {miniflux}/v1/entries/{id}`:
transport failure, or a response whose status is/is not a success. -/
inductive UpdateWire where
  | sendErr (e : String)
  | status (success : Bool)
deriving DecidableEq, Repr

/-- One outbound call performed by the pipeline, for counting side effects:
a chat-completion (summarization) request with its messages, or an entry
update with the body it sends. -/
inductive CallEvent where
  | summarize (messages : List Message)
  | update (id : Nat) (content : String)
deriving DecidableEq, Repr

/-- `request_openai_chat_completion` (src/lib.rs:119-146).  `?` on the send
is an `Err`; on a success status it parses the body and returns
`choices[0].message.content` — Rust `Vec` indexing, which PANICS when
`choices` is empty; on a failure status it returns `Err` with the body text.
(The `format!("Error: {:?}", ..)` quoting of the body text is abstracted to
plain concatenation; no property depends on the error text.) -/
def request_openai_chat_completion (base_url api_key model : String)
    (messages : List Message) (wire : OpenAiWire) : RResult String :=
  match base_url, api_key, model, messages, wire with
  | _, _, _, _, .sendErr e => .err e
  | _, _, _, _, .okBadJson e => .err e
  | _, _, _, _, .okJson [] => .panic "index out of bounds: the len is 0 but the index is 0"
  | _, _, _, _, .okJson (c :: _) => .ok c.message.content
  | _, _, _, _, .errStatus t => .err ("Error: " ++ t)
  | _, _, _, _, .errStatusTextErr e => .err e

/-- `update_entry` (src/lib.rs:66-95): `?` on the send is an `Err`;
`error_for_status()?` turns a non-success status into an `Err`; otherwise
`Ok(())`. -/
def update_entry (base_url username password : String) (id : Nat)
    (content : String) (wire : UpdateWire) : RResult Unit :=
  match base_url, username, password, id, content, wire with
  | _, _, _, _, _, .sendErr e => .err e
  | _, _, _, _, _, .status true => .ok ()
  | _, _, _, _, _, .status false => .err "HTTP status client or server error"

/-- The fixed system instruction sent with every summarization request
(src/lib.rs:184). -/
def system_prompt : String :=
  "Please summarize the content of the article under 150 words in Chinese. Do not add any additional Character、markdown language to the result text. 请用不超过150个汉字概括文章内容。结果文本中不要添加任何额外的字符、Markdown语言。"

/-- The two-message exchange built for an entry body (src/lib.rs:181-193). -/
def mk_messages (content : String) : List Message :=
  [⟨"system", system_prompt⟩,
   ⟨"user", "The following is the input content:\n---\n " ++ content⟩]

/-- The fixed text the summary wrapper opens with — everything of the
`format!` template before the summary placeholder (src/lib.rs:206). -/
def summary_marker_prefix : String :=
  "<pre style=\"white-space: pre-wrap;\"><code>\n💡AI 摘要：\n"

/-- The marker-wrapper block around a summary: the updated body is this
block followed by the original body (src/lib.rs:205-208). -/
def marker_block (summary : String) : String :=
  summary_marker_prefix ++ summary ++ "</code></pre><hr><br />"

/-- The eligibility filter of `generate_and_update_entry`
(src/lib.rs:172-177): skip when the body starts with `"<pre"`, or when the
feed is present (`Option::map_or(false, ..)`) and its `site_url` is not in
the whitelist. -/
def skip_guard (config : Config) (entry : Entry) : Bool :=
  str_starts_with entry.content "<pre" ||
    (match entry.feed with
     | some feed => !(config.whitelist.contains feed.site_url)
     | none => false)

/-- `generate_and_update_entry` (src/lib.rs:166-223), with the two outbound
calls it can make driven by wire values and recorded as `CallEvent`s.
A failed summarization (`if let Ok(..)` not matching) falls through to
`Ok(())`; an empty-after-trim summary also falls through to `Ok(())`;
an update failure propagates through `?`. -/
def generate_and_update_entry (config : Config) (entry : Entry)
    (ow : OpenAiWire) (uw : UpdateWire) : RResult Unit × List CallEvent :=
  let content := entry.content
  if skip_guard config entry then
    (.ok (), [])
  else
    let messages := mk_messages content
    match request_openai_chat_completion config.openai.url config.openai.token
        config.openai.model messages ow with
    | .panic m => (.panic m, [.summarize messages])
    | .err _ => (.ok (), [.summarize messages])
    | .ok summary =>
      if !(rust_trim summary == "") then
        let updated_content := marker_block summary ++ content
        match update_entry config.miniflux.url config.miniflux.username
            config.miniflux.password entry.id updated_content uw with
        | .ok _ => (.ok (), [.summarize messages, .update entry.id updated_content])
        | .err e => (.err e, [.summarize messages, .update entry.id updated_content])
        | .panic m => (.panic m, [.summarize messages, .update entry.id updated_content])
      else
        (.ok (), [.summarize messages])

/-! ### HMAC-SHA256 (the `hmac`/`sha2`/`hex` crates used by `validate_signature`) -/

/-- Truncate to a 32-bit word. -/
def w32 (n : Nat) : Nat := n % 4294967296

/-- 32-bit right rotation. -/
def rotr32 (n x : Nat) : Nat := w32 ((x >>> n) ||| (x <<< (32 - n)))

/-- UTF-8 encoding of one character (what `str::as_bytes` exposes). -/
def utf8_encode_char (c : Char) : List Nat :=
  let n := c.toNat
  if n < 0x80 then [n]
  else if n < 0x800 then
    [0xC0 ||| (n >>> 6), 0x80 ||| (n &&& 0x3F)]
  else if n < 0x10000 then
    [0xE0 ||| (n >>> 12), 0x80 ||| ((n >>> 6) &&& 0x3F), 0x80 ||| (n &&& 0x3F)]
  else
    [0xF0 ||| (n >>> 18), 0x80 ||| ((n >>> 12) &&& 0x3F),
     0x80 ||| ((n >>> 6) &&& 0x3F), 0x80 ||| (n &&& 0x3F)]

/-- Rust `str::as_bytes`: the UTF-8 bytes of a string. -/
def str_bytes (s : String) : List Nat :=
  s.data.flatMap utf8_encode_char

/-- `n` as `k` big-endian bytes. -/
def bytes_be : Nat → Nat → List Nat
  | 0, _ => []
  | k + 1, n => bytes_be k (n >>> 8) ++ [n &&& 0xFF]

/-- The SHA-256 round constants (FIPS 180-4, written here in decimal). -/
def sha_k : List Nat :=
  [1116352408, 1899447441, 3049323471, 3921009573, 961987163, 1508970993,
   2453635748, 2870763221, 3624381080, 310598401, 607225278, 1426881987,
   1925078388, 2162078206, 2614888103, 3248222580, 3835390401, 4022224774,
   264347078, 604807628, 770255983, 1249150122, 1555081692, 1996064986,
   2554220882, 2821834349, 2952996808, 3210313671, 3336571891, 3584528711,
   113926993, 338241895, 666307205, 773529912, 1294757372, 1396182291,
   1695183700, 1986661051, 2177026350, 2456956037, 2730485921, 2820302411,
   3259730800, 3345764771, 3516065817, 3600352804, 4094571909, 275423344,
   430227734, 506948616, 659060556, 883997877, 958139571, 1322822218,
   1537002063, 1747873779, 1955562222, 2024104815, 2227730452, 2361852424,
   2428436474, 2756734187, 3204031479, 3329325298]

/-- The eight 32-bit words of a SHA-256 chaining state. -/
structure Hash8 where
  h0 : Nat
  h1 : Nat
  h2 : Nat
  h3 : Nat
  h4 : Nat
  h5 : Nat
  h6 : Nat
  h7 : Nat
deriving DecidableEq, Repr

/-- The SHA-256 initial state (FIPS 180-4, written here in decimal). -/
def sha_init : Hash8 :=
  ⟨1779033703, 3144134277, 1013904242, 2773480762,
   1359893119, 2600822924, 528734635, 1541459225⟩

/-- σ₀ of the message schedule. -/
def ssig0 (x : Nat) : Nat := w32 (rotr32 7 x ^^^ rotr32 18 x ^^^ (x >>> 3))

/-- σ₁ of the message schedule. -/
def ssig1 (x : Nat) : Nat := w32 (rotr32 17 x ^^^ rotr32 19 x ^^^ (x >>> 10))

/-- Σ₀ of the compression function. -/
def bsig0 (x : Nat) : Nat := w32 (rotr32 2 x ^^^ rotr32 13 x ^^^ rotr32 22 x)

/-- Σ₁ of the compression function. -/
def bsig1 (x : Nat) : Nat := w32 (rotr32 6 x ^^^ rotr32 11 x ^^^ rotr32 25 x)

/-- The `Ch` function (¬x as xor with the 32-bit mask). -/
def sha_ch (x y z : Nat) : Nat := w32 ((x &&& y) ^^^ ((0xFFFFFFFF ^^^ x) &&& z))

/-- The `Maj` function. -/
def sha_maj (x y z : Nat) : Nat := w32 ((x &&& y) ^^^ (x &&& z) ^^^ (y &&& z))

/-- Append the next word of the message schedule. -/
def schedule_step (ws : List Nat) : List Nat :=
  let n := ws.length
  ws ++ [w32 (ws.getD (n - 16) 0 + ssig0 (ws.getD (n - 15) 0) +
              ws.getD (n - 7) 0 + ssig1 (ws.getD (n - 2) 0))]

/-- Extend a 16-word block by `k` schedule words. -/
def build_schedule : Nat → List Nat → List Nat
  | 0, ws => ws
  | k + 1, ws => build_schedule k (schedule_step ws)

/-- One round of the SHA-256 compression function with key/schedule pair `kw`. -/
def round_step (st : Hash8) (kw : Nat × Nat) : Hash8 :=
  let t1 := w32 (st.h7 + bsig1 st.h4 + sha_ch st.h4 st.h5 st.h6 + kw.1 + kw.2)
  let t2 := w32 (bsig0 st.h0 + sha_maj st.h0 st.h1 st.h2)
  ⟨w32 (t1 + t2), st.h0, st.h1, st.h2, w32 (st.h3 + t1), st.h4, st.h5, st.h6⟩

/-- Compress one 16-word block into the chaining state. -/
def compress_block (st : Hash8) (block : List Nat) : Hash8 :=
  let ws := build_schedule 48 block
  let f := (sha_k.zip ws).foldl round_step st
  ⟨w32 (st.h0 + f.h0), w32 (st.h1 + f.h1), w32 (st.h2 + f.h2), w32 (st.h3 + f.h3),
   w32 (st.h4 + f.h4), w32 (st.h5 + f.h5), w32 (st.h6 + f.h6), w32 (st.h7 + f.h7)⟩

/-- SHA-256 padding: `0x80`, zeros to 56 mod 64, then the bit length as
eight big-endian bytes. -/
def pad_message (msg : List Nat) : List Nat :=
  msg ++ [0x80] ++ List.replicate ((64 - ((msg.length + 9) % 64)) % 64) 0 ++
    bytes_be 8 (msg.length * 8)

/-- Big-endian 32-bit words from a byte list. -/
def to_words : List Nat → List Nat
  | b0 :: b1 :: b2 :: b3 :: rest =>
    ((b0 <<< 24) ||| (b1 <<< 16) ||| (b2 <<< 8) ||| b3) :: to_words rest
  | _ => []

/-- Fold the compression function over the 16-word blocks of `ws`
(fuel-indexed so the definition is structural and kernel-reducible). -/
def sha_blocks : Nat → Hash8 → List Nat → Hash8
  | 0, st, _ => st
  | _ + 1, st, [] => st
  | fuel + 1, st, ws => sha_blocks fuel (compress_block st (ws.take 16)) (ws.drop 16)

/-- The digest bytes of a chaining state. -/
def hash_bytes (st : Hash8) : List Nat :=
  bytes_be 4 st.h0 ++ bytes_be 4 st.h1 ++ bytes_be 4 st.h2 ++ bytes_be 4 st.h3 ++
  bytes_be 4 st.h4 ++ bytes_be 4 st.h5 ++ bytes_be 4 st.h6 ++ bytes_be 4 st.h7

/-- SHA-256 of a byte list. -/
def sha256 (msg : List Nat) : List Nat :=
  let ws := to_words (pad_message msg)
  hash_bytes (sha_blocks ws.length sha_init ws)

/-- HMAC-SHA256 with block size 64 (`Hmac::<Sha256>` accepts a key of any
size: a long key is hashed, then zero-padded to the block size). -/
def hmac_sha256 (key msg : List Nat) : List Nat :=
  let k0 := if 64 < key.length then sha256 key else key
  let k1 := k0 ++ List.replicate (64 - k0.length) 0
  sha256 ((k1.map (fun b => b ^^^ 0x5C)) ++
    sha256 ((k1.map (fun b => b ^^^ 0x36)) ++ msg))

/-- One lowercase hex digit. -/
def hex_digit (n : Nat) : Char :=
  if n < 10 then Char.ofNat (48 + n) else Char.ofNat (87 + n)

/-- `hex::encode`: lowercase hex of a byte list. -/
def hex_encode (bs : List Nat) : String :=
  String.mk (bs.flatMap (fun b => [hex_digit ((b >>> 4) &&& 0xF), hex_digit (b &&& 0xF)]))

/-- `validate_signature` (src/lib.rs:268-275): recompute the hex
HMAC-SHA256 of the payload under the secret and compare it with the
supplied signature. -/
def validate_signature (secret payload signature : String) : Bool :=
  hex_encode (hmac_sha256 (str_bytes secret) (str_bytes payload)) == signature

/-! ### The two trigger entry points -/

/-- The HTTP methods `worker::Method` distinguishes (only the comparison
with `Post` matters to this program). -/
inductive Method where
  | get
  | post
  | put
  | delete
  | patch
  | head
  | options
deriving DecidableEq, Repr

/-- An inbound `worker::Request`: its method, the result of `req.text()`
(reading the body can fail), and its headers. -/
structure WorkerRequest where
  method : Method
  body_text : Except String String
  headers : List (String × String)
deriving Repr

/-- `Headers::get` for a valid header name: the value of the first header
with that name, when present. -/
def headers_get (headers : List (String × String)) (name : String) : Option String :=
  (headers.find? (fun p => p.1 == name)).map (fun p => p.2)

/-- A `worker::Response` as this program builds it: `Response::ok(msg)` is
status 200 with `msg`; `Response::error(msg, code)` is status `code` with
`msg`.  Both constructors return `Ok` at the `worker::Result` level. -/
structure WResponse where
  status : Nat
  body : String
deriving DecidableEq, Repr

/-- `Response::ok`. -/
def WResponse.okText (msg : String) : WResponse := ⟨200, msg⟩

/-- `Response::error`. -/
def WResponse.errorText (msg : String) (code : Nat) : WResponse := ⟨code, msg⟩

/-- The environment variables the worker reads.  Every access in the source
is `env.var("..").unwrap()`, so a configured deployment (all variables
present) is the standing precondition; the bindings are modelled as total
fields. -/
structure Env where
  WHITELIST_URL : String
  OPENAI_URL : String
  OPENAI_TOKEN : String
  OPENAI_MODEL : String
  MINIFLUX_URL : String
  MINIFLUX_USERNAME : String
  MINIFLUX_PASSWORD : String
  MINIFLUX_WEBHOOK_SECRET : String
deriving DecidableEq, Repr

/-- Split a character list at a separator, keeping empty pieces — the
semantics of Rust `str::split` with a one-character pattern. -/
def split_chars (sep : Char) : List Char → List Char → List String
  | [], acc => [String.mk acc.reverse]
  | c :: rest, acc =>
    if c = sep then String.mk acc.reverse :: split_chars sep rest []
    else split_chars sep rest (c :: acc)

/-- Rust `str::split` with a one-character separator. -/
def rust_split (s : String) (sep : Char) : List String :=
  split_chars sep s.data []

/-- The `Config` value both entry points build from the environment
(src/lib.rs:227-245 and 302-320): the whitelist is the comma-split of
`WHITELIST_URL`. -/
def config_from_env (env : Env) : Config :=
  { whitelist := rust_split env.WHITELIST_URL ','
    openai := ⟨env.OPENAI_URL, env.OPENAI_TOKEN, env.OPENAI_MODEL⟩
    miniflux := ⟨env.MINIFLUX_URL, env.MINIFLUX_USERNAME, env.MINIFLUX_PASSWORD⟩ }

/-- Per-entry network oracle: what the summarization call and the update
call of the `i`-th batch entry would return. -/
def EntryOracle : Type := Nat → OpenAiWire × UpdateWire

/-- The batch driver both entry points share (src/lib.rs:260-264 and
329-333): `stream::iter(entries).map(generate_and_update_entry)
.buffer_unordered(5).collect::<Vec<_>>()`.  Every entry is processed and
the per-entry `Result`s are collected; a panic in any task unwinds the
whole invocation.  `buffer_unordered` interleaves at most five tasks;
entries are data-independent, so each entry's result and calls are as in
the sequential model below, and the trace order is one admissible
interleaving (no claim depends on cross-entry order). -/
def run_batch (config : Config) (oracle : EntryOracle) (i : Nat) :
    List Entry → RResult (List (RResult Unit)) × List CallEvent
  | [] => (.ok [], [])
  | e :: rest =>
    let r := generate_and_update_entry config e (oracle i).1 (oracle i).2
    match r.1 with
    | .panic m => (.panic m, r.2)
    | other =>
      let rec_result := run_batch config oracle (i + 1) rest
      match rec_result.1 with
      | .ok l => (.ok (other :: l), r.2 ++ rec_result.2)
      | .panic m => (.panic m, r.2 ++ rec_result.2)
      | .err m => (.err m, r.2 ++ rec_result.2)

/-- The concurrency limit passed to `buffer_unordered` on both trigger
paths (`let max_concurrent_tasks = 5`, src/lib.rs:257 and 327). -/
def max_concurrent_tasks : Nat := 5

/-- The `fetch` handler `main` (src/lib.rs:277-336).  `parse` is the
result of `serde_json::from_str::<WebhookPayload>` on the body;
`oracle` drives the per-entry outbound calls.  Returns the
`worker::Result<Response>` (or a panic) together with the outbound calls
performed. -/
def main_fetch (req : WorkerRequest) (env : Env)
    (parse : String → Except String WebhookPayload)
    (oracle : EntryOracle) : RResult WResponse × List CallEvent :=
  if req.method ≠ Method.post then
    (.ok (WResponse.errorText "Method Not Allowed" 405), [])
  else
    match req.body_text with
    | .error e => (.err e, [])
    | .ok payload =>
      match headers_get req.headers "X-Miniflux-Signature" with
      | none => (.panic "called Option::unwrap on a None value", [])
      | some signature =>
        let secret := env.MINIFLUX_WEBHOOK_SECRET
        if !(validate_signature secret payload signature) then
          (.ok (WResponse.errorText "Invalid signature" 401), [])
        else
          match parse payload with
          | .error e => (.err e, [])
          | .ok webhook_payload =>
            if webhook_payload.event_type ≠ "new_entries" then
              (.ok (WResponse.okText "Ignored non-new_entries event"), [])
            else
              let config := config_from_env env
              if !(config.whitelist.contains webhook_payload.feed.site_url) then
                (.ok (WResponse.okText "Ignored non-whitelist feed"), [])
              else
                let batch := run_batch config oracle 0 webhook_payload.entries
                match batch.1 with
                | .panic m => (.panic m, batch.2)
                | _ => (.ok (WResponse.okText "Webhook handled"), batch.2)

/-- The `scheduled` handler (src/lib.rs:225-265).  `entries_result` is
what `get_entries` returned (`.unwrap()` panics on an `Err`); the batch
results are discarded (`let _ : Vec<_> = ..`). -/
def scheduled_model (env : Env) (entries_result : Except String ApiResponse)
    (oracle : EntryOracle) : RResult Unit × List CallEvent :=
  let config := config_from_env env
  match entries_result with
  | .error e => (.panic ("called Result::unwrap on an Err value: " ++ e), [])
  | .ok resp =>
    let batch := run_batch config oracle 0 resp.entries
    match batch.1 with
    | .panic m => (.panic m, batch.2)
    | _ => (.ok (), batch.2)

/-! ### Admission-control model of `buffer_unordered`

Modelled from the spec: the concurrency ceiling itself is enforced inside
`futures::stream::StreamExt::buffer_unordered`, whose implementation is not
part of this repository; the source only chooses the limit
(`max_concurrent_tasks = 5`).  Spec §4.1/§5/§9 describe the semantics:
tasks are admitted in batch order while fewer than the limit are in
flight; as one in-flight task completes, the next queued task may be
admitted; completion order is unconstrained. -/

/-- Scheduler state: task indices still queued (in batch order), task
indices currently in flight, task indices completed. -/
structure SchedState where
  pending : List Nat
  inFlight : List Nat
  done : List Nat
deriving DecidableEq, Repr

/-- Modelled from the spec: one scheduler transition of the
`buffer_unordered` admission control — admit the next queued task when
fewer than `limit` are in flight, or complete any in-flight task. -/
inductive SchedStep (limit : Nat) : SchedState → SchedState → Prop
  | launch (t : Nat) (rest fl d : List Nat) (h : fl.length < limit) :
      SchedStep limit ⟨t :: rest, fl, d⟩ ⟨rest, t :: fl, d⟩
  | complete (t : Nat) (p fl d : List Nat) (h : t ∈ fl) :
      SchedStep limit ⟨p, fl, d⟩ ⟨p, fl.erase t, t :: d⟩

/-- States reachable from `s0` by scheduler transitions. -/
inductive SchedReachable (limit : Nat) (s0 : SchedState) : SchedState → Prop
  | refl : SchedReachable limit s0 s0
  | step (s t : SchedState) (hr : SchedReachable limit s0 s)
      (hs : SchedStep limit s t) : SchedReachable limit s0 t

/-- The initial scheduler state for a batch of `m` entries: all queued,
none in flight. -/
def sched_init (m : Nat) : SchedState := ⟨List.range m, [], []⟩

/-! ### Helper lemmas and sample data -/

/-- Whenever the eligibility filter says skip, `generate_and_update_entry`
returns `Ok(())` immediately and performs no outbound call. -/
theorem gaue_skip_of_guard (config : Config) (entry : Entry)
    (ow : OpenAiWire) (uw : UpdateWire) (h : skip_guard config entry = true) :
    generate_and_update_entry config entry ow uw = (.ok (), []) := by
  simp [generate_and_update_entry, h]

/-- A sample configuration whitelisting one site. -/
def sample_config : Config :=
  ⟨⟨"https://mf.example", "user", "pass"⟩, ⟨"https://oa.example", "tok", "gpt"⟩,
   ["https://allowed.example"]⟩

/-- A sample successful summarization wire. -/
def sample_ow : OpenAiWire := .okJson [⟨⟨"assistant", "一句话摘要"⟩⟩]

/-! ### C10 -/

/-- C10: the idempotence guard tests only the four characters `"<pre"`:
every entry whose content begins with `"<pre"` gets zero summarization and
zero update calls — even when the body does not begin with the full
summary-marker wrapper. -/
theorem C10_pre_prefix_skipped (config : Config) (entry : Entry)
    (ow : OpenAiWire) (uw : UpdateWire)
    (h : str_starts_with entry.content "<pre" = true)
    (hnotmarker : str_starts_with entry.content summary_marker_prefix = false) :
    generate_and_update_entry config entry ow uw = (.ok (), []) := by
  apply gaue_skip_of_guard
  simp [skip_guard, h]

/-- Witness for C10: an ordinary article that opens with its own
`<pre>` block, from a whitelisted site, never summarized — skipped anyway. -/
theorem C10_pre_prefix_skipped_witness :
    str_starts_with "<pre>fn f()</pre> article text" "<pre" = true ∧
    str_starts_with "<pre>fn f()</pre> article text" summary_marker_prefix = false ∧
    generate_and_update_entry sample_config
      ⟨11, "<pre>fn f()</pre> article text", some ⟨"https://allowed.example"⟩⟩
      sample_ow (.status true) = (.ok (), []) :=
  ⟨by decide, by decide,
   C10_pre_prefix_skipped sample_config
     ⟨11, "<pre>fn f()</pre> article text", some ⟨"https://allowed.example"⟩⟩
     sample_ow (.status true) (by decide) (by decide)⟩

/-! ### C4 -/

/-- C4: an entry whose body already starts with the summary-marker prefix
is never re-summarized: zero summarization calls and zero update calls. -/
theorem C4_already_summarized_skipped (config : Config) (entry : Entry)
    (ow : OpenAiWire) (uw : UpdateWire)
    (h : str_starts_with entry.content summary_marker_prefix = true) :
    generate_and_update_entry config entry ow uw = (.ok (), []) := by
  apply gaue_skip_of_guard
  have hpre : str_starts_with entry.content "<pre" = true := by
    unfold str_starts_with at h ⊢
    rw [List.isPrefixOf_iff_prefix] at h ⊢
    exact List.IsPrefix.trans (by decide) h
  simp [skip_guard, hpre]

/-- Witness for C4: a body produced by a previous summarization run
(marker block followed by the old body) is skipped. -/
theorem C4_already_summarized_skipped_witness :
    str_starts_with (marker_block "旧摘要" ++ "old body") summary_marker_prefix = true ∧
    generate_and_update_entry sample_config
      ⟨12, marker_block "旧摘要" ++ "old body", some ⟨"https://allowed.example"⟩⟩
      sample_ow (.status true) = (.ok (), []) :=
  ⟨by decide,
   C4_already_summarized_skipped sample_config
     ⟨12, marker_block "旧摘要" ++ "old body", some ⟨"https://allowed.example"⟩⟩
     sample_ow (.status true) (by decide)⟩

/-! ### C1 -/

/-- An entry with no feed reference, a body not starting with `"<pre"`, and
a configuration that cannot whitelist it. -/
def c1_entry : Entry := ⟨1, "hello world", none⟩

/-- Counterexample to C1: the claim says an entry with an absent feed
reference gets zero summarization and zero update calls; on the code,
`Option::map_or(false, ..)` makes the whitelist test pass for an absent
feed, so this entry is summarized and updated. -/
theorem C1_counterexample :
    c1_entry.feed = none ∧
    CallEvent.summarize (mk_messages c1_entry.content) ∈
      (generate_and_update_entry sample_config c1_entry sample_ow (.status true)).2 ∧
    CallEvent.update c1_entry.id (marker_block "一句话摘要" ++ c1_entry.content) ∈
      (generate_and_update_entry sample_config c1_entry sample_ow (.status true)).2 :=
  ⟨rfl, by decide, by decide⟩

/-- C1 as amended: an entry whose feed reference is PRESENT and whose site
origin is absent from the whitelist gets zero summarization calls and zero
update calls and returns successfully; an entry with an absent feed
reference is not filtered by the whitelist check. -/
theorem C1_amended_whitelist_skip (config : Config) (entry : Entry)
    (ow : OpenAiWire) (uw : UpdateWire) (feed : Feed)
    (hf : entry.feed = some feed)
    (hw : config.whitelist.contains feed.site_url = false) :
    generate_and_update_entry config entry ow uw = (.ok (), []) := by
  apply gaue_skip_of_guard
  simp only [skip_guard, hf]
  rw [hw]
  simp

/-- Witness for the amended C1: a non-whitelisted feed is skipped. -/
theorem C1_amended_whitelist_skip_witness :
    (Entry.mk 2 "body" (some ⟨"https://other.example"⟩)).feed =
      some ⟨"https://other.example"⟩ ∧
    sample_config.whitelist.contains "https://other.example" = false ∧
    generate_and_update_entry sample_config
      ⟨2, "body", some ⟨"https://other.example"⟩⟩ sample_ow (.status true) =
      (.ok (), []) :=
  ⟨rfl, by decide,
   C1_amended_whitelist_skip sample_config
     ⟨2, "body", some ⟨"https://other.example"⟩⟩ sample_ow (.status true)
     ⟨"https://other.example"⟩ rfl (by decide)⟩

/-! ### C2 -/

/-- C2: for an entry that passes the filter and whose summarization call
returns a summary that is non-empty after trimming, the body sent to the
update call is exactly the marker-wrapper block of the summary followed by
the original body, and the original body is preserved byte-for-byte as a
suffix (UTF-8 character-list suffix) of the new body. -/
theorem C2_update_body_marker_wrap (config : Config) (entry : Entry)
    (ow : OpenAiWire) (uw : UpdateWire) (summary : String)
    (hguard : skip_guard config entry = false)
    (hsum : request_openai_chat_completion config.openai.url config.openai.token
      config.openai.model (mk_messages entry.content) ow = .ok summary)
    (hne : (rust_trim summary == "") = false) :
    (generate_and_update_entry config entry ow uw).2 =
      [.summarize (mk_messages entry.content),
       .update entry.id (marker_block summary ++ entry.content)] ∧
    (marker_block summary ++ entry.content).data =
      (marker_block summary).data ++ entry.content.data := by
  refine ⟨?_, String.data_append _ _⟩
  simp only [generate_and_update_entry, hguard, hsum, hne, Bool.false_eq_true,
    if_false, Bool.not_false, if_true]
  cases update_entry config.miniflux.url config.miniflux.username
      config.miniflux.password entry.id (marker_block summary ++ entry.content) uw <;>
    rfl

/-- Witness for C2: a whitelisted entry with a plain body and a concrete
non-empty summary. -/
theorem C2_update_body_marker_wrap_witness :
    (generate_and_update_entry sample_config
        ⟨21, "article text", some ⟨"https://allowed.example"⟩⟩
        sample_ow (.status true)).2 =
      [.summarize (mk_messages "article text"),
       .update 21 (marker_block "一句话摘要" ++ "article text")] ∧
    (marker_block "一句话摘要" ++ "article text").data =
      (marker_block "一句话摘要").data ++ "article text".data :=
  C2_update_body_marker_wrap sample_config
    ⟨21, "article text", some ⟨"https://allowed.example"⟩⟩
    sample_ow (.status true) "一句话摘要" (by decide) rfl (by decide)

/-! ### C6 -/

/-- C6: for an entry that passes the filter, a successful summarization
returning an empty-after-trim summary performs no update call, and the
entry's processing returns `Ok` (outcome skipped); the only outbound call
is the summarization itself. -/
theorem C6_blank_summary_skipped (config : Config) (entry : Entry)
    (ow : OpenAiWire) (uw : UpdateWire) (summary : String)
    (hguard : skip_guard config entry = false)
    (hsum : request_openai_chat_completion config.openai.url config.openai.token
      config.openai.model (mk_messages entry.content) ow = .ok summary)
    (hblank : rust_trim summary = "") :
    generate_and_update_entry config entry ow uw =
      (.ok (), [.summarize (mk_messages entry.content)]) := by
  simp [generate_and_update_entry, hguard, hsum, hblank]

/-- Witness for C6: a whitespace-only summary (spaces, tab, newline). -/
theorem C6_blank_summary_skipped_witness :
    generate_and_update_entry sample_config
      ⟨22, "article text", some ⟨"https://allowed.example"⟩⟩
      (.okJson [⟨⟨"assistant", " \n\t "⟩⟩]) (.status true) =
      (.ok (), [.summarize (mk_messages "article text")]) :=
  C6_blank_summary_skipped sample_config
    ⟨22, "article text", some ⟨"https://allowed.example"⟩⟩
    (.okJson [⟨⟨"assistant", " \n\t "⟩⟩]) (.status true) " \n\t "
    (by decide) rfl (by decide)

/-! ### C5 -/

/-- Counterexample to C5: the claim says a summarization failure of any
kind — including an unexpected response shape — never panics; but a
success-status response whose parsed `choices` array is empty makes
`choices[0]` panic, aborting the pipeline instead of isolating the
failure. -/
theorem C5_counterexample :
    (generate_and_update_entry sample_config
        ⟨3, "plain body", some ⟨"https://allowed.example"⟩⟩
        (.okJson []) (.status true)).1 =
      .panic "index out of bounds: the len is 0 but the index is 0" := by
  decide

/-- C5 as amended: when the summarization call fails with a transport
error, a non-success status, or a body that fails to parse (an `Err`, not
the empty-`choices` panic), the entry's processing returns `Ok` and no
update call is performed for it. -/
theorem C5_amended_err_isolated (config : Config) (entry : Entry)
    (ow : OpenAiWire) (uw : UpdateWire)
    (herr : ∃ e, request_openai_chat_completion config.openai.url
      config.openai.token config.openai.model (mk_messages entry.content) ow =
        .err e) :
    (generate_and_update_entry config entry ow uw).1 = .ok () ∧
    ∀ id c, CallEvent.update id c ∉
      (generate_and_update_entry config entry ow uw).2 := by
  obtain ⟨e, he⟩ := herr
  by_cases hguard : skip_guard config entry = true
  · rw [gaue_skip_of_guard config entry ow uw hguard]
    simp
  · rw [Bool.not_eq_true] at hguard
    simp [generate_and_update_entry, hguard, he]

/-- Witness for the amended C5: a transport failure on the summarization
call leaves the entry untouched and un-updated. -/
theorem C5_amended_err_isolated_witness :
    (generate_and_update_entry sample_config
        ⟨4, "plain body", some ⟨"https://allowed.example"⟩⟩
        (.sendErr "connection reset by peer") (.status true)).1 = .ok () ∧
    ∀ id c, CallEvent.update id c ∉
      (generate_and_update_entry sample_config
        ⟨4, "plain body", some ⟨"https://allowed.example"⟩⟩
        (.sendErr "connection reset by peer") (.status true)).2 :=
  C5_amended_err_isolated sample_config
    ⟨4, "plain body", some ⟨"https://allowed.example"⟩⟩
    (.sendErr "connection reset by peer") (.status true)
    ⟨"connection reset by peer", rfl⟩

/-! ### C9 -/

/-- A sample configured environment. -/
def sample_env : Env :=
  ⟨"https://allowed.example", "https://oa.example", "tok", "gpt",
   "https://mf.example", "user", "pass", "whsec"⟩

/-- C9: a POST whose headers carry no `X-Miniflux-Signature` entry makes
the fetch handler unwrap a `None` and panic — no HTTP response (400, 401
or otherwise) is produced, and no downstream call is made; the handler is
total only when the signature header is present. -/
theorem C9_missing_signature_header_panics (req : WorkerRequest) (env : Env)
    (parse : String → Except String WebhookPayload) (oracle : EntryOracle)
    (payload : String)
    (hm : req.method = Method.post)
    (hb : req.body_text = .ok payload)
    (hh : headers_get req.headers "X-Miniflux-Signature" = none) :
    main_fetch req env parse oracle =
      (.panic "called Option::unwrap on a None value", []) := by
  simp [main_fetch, hm, hb, hh]

/-- Witness for C9: a well-formed POST with a readable body and no
signature header panics. -/
theorem C9_missing_signature_header_panics_witness :
    main_fetch ⟨Method.post, .ok "{}", [("Content-Type", "application/json")]⟩
      sample_env (fun _ => .error "unused") (fun _ => (.sendErr "x", .sendErr "x")) =
      (.panic "called Option::unwrap on a None value", []) :=
  C9_missing_signature_header_panics
    ⟨Method.post, .ok "{}", [("Content-Type", "application/json")]⟩
    sample_env (fun _ => .error "unused") (fun _ => (.sendErr "x", .sendErr "x"))
    "{}" rfl rfl (by decide)

/-! ### C7 -/

/-- An environment whose webhook secret is the C7 witness secret. -/
def sample_env2 : Env :=
  ⟨"https://allowed.example", "https://oa.example", "tok", "gpt",
   "https://mf.example", "user", "pass", "whsec2"⟩

/-- C7: `validate_signature s p d` returns `true` exactly when `d` is the
lowercase hex encoding of the HMAC-SHA256 digest of `p` under `s` (so any
`d` differing from that encoding is rejected, and a payload change makes
verification fail whenever it changes the digest); and in the webhook
handler a failed verification yields HTTP 401 "Invalid signature" with
zero downstream calls. -/
theorem C7_validate_signature_correct (s p d : String) :
    (validate_signature s p d = true ↔
      d = hex_encode (hmac_sha256 (str_bytes s) (str_bytes p))) ∧
    (∀ (req : WorkerRequest) (env : Env)
        (parse : String → Except String WebhookPayload) (oracle : EntryOracle),
      req.method = Method.post → req.body_text = .ok p →
      headers_get req.headers "X-Miniflux-Signature" = some d →
      env.MINIFLUX_WEBHOOK_SECRET = s →
      validate_signature s p d = false →
      main_fetch req env parse oracle =
        (.ok (WResponse.errorText "Invalid signature" 401), [])) := by
  constructor
  · simp only [validate_signature, beq_iff_eq]
    exact ⟨fun h => h.symm, fun h => h.symm⟩
  · intro req env parse oracle hm hb hh hs hv
    simp [main_fetch, hm, hb, hh, hs, hv]

/-- Witness for C7: the correct digest verifies; a wrong digest is
rejected by the handler with a 401 and no outbound call. -/
theorem C7_validate_signature_correct_witness :
    validate_signature "whsec2" "body2"
      (hex_encode (hmac_sha256 (str_bytes "whsec2") (str_bytes "body2"))) = true ∧
    main_fetch ⟨Method.post, .ok "body2", [("X-Miniflux-Signature", "deadbeef")]⟩
      sample_env2 (fun _ => .error "unused")
      (fun _ => (.sendErr "x", .sendErr "x")) =
      (.ok (WResponse.errorText "Invalid signature" 401), []) := by
  constructor
  · exact (C7_validate_signature_correct "whsec2" "body2"
      (hex_encode (hmac_sha256 (str_bytes "whsec2") (str_bytes "body2")))).1.mpr rfl
  · exact (C7_validate_signature_correct "whsec2" "body2" "deadbeef").2
      ⟨Method.post, .ok "body2", [("X-Miniflux-Signature", "deadbeef")]⟩
      sample_env2 (fun _ => .error "unused")
      (fun _ => (.sendErr "x", .sendErr "x"))
      rfl rfl (by decide) rfl (by decide)

/-! ### C3 -/

/-- The raw webhook body of the C3 scenario. -/
def c3_payload_str : String := "webhook body bytes"

/-- The correct signature for the C3 scenario's body under `sample_env`'s
secret. -/
def c3_sig : String :=
  hex_encode (hmac_sha256 (str_bytes "whsec") (str_bytes c3_payload_str))

/-- A whitelisted entry for the C3 scenario. -/
def c3_entry : Entry := ⟨9, "article body", some ⟨"https://allowed.example"⟩⟩

/-- The parsed webhook payload of the C3 scenario. -/
def c3_webhook : WebhookPayload :=
  ⟨"new_entries", ⟨"https://allowed.example"⟩, [c3_entry]⟩

/-- The C3 scenario's request: a POST with the correct signature. -/
def c3_req : WorkerRequest :=
  ⟨Method.post, .ok c3_payload_str, [("X-Miniflux-Signature", c3_sig)]⟩

/-- The C3 scenario's parse result. -/
def c3_parse : String → Except String WebhookPayload := fun _ => .ok c3_webhook

/-- The C3 scenario's network oracle: summarization succeeds with a
non-empty summary, the update call returns a non-success status. -/
def c3_oracle : EntryOracle :=
  fun _ => (.okJson [⟨⟨"assistant", "摘要内容"⟩⟩], .status false)

/-- Counterexample to C3: the entry's update call returns a non-success
status, so `generate_and_update_entry` returns an `Err` — but the batch
driver collects and discards the per-entry results, and the webhook
handler still answers HTTP 200 "Webhook handled" instead of failing. -/
theorem C3_counterexample :
    (generate_and_update_entry (config_from_env sample_env) c3_entry
        (c3_oracle 0).1 (c3_oracle 0).2).1 =
      .err "HTTP status client or server error" ∧
    (main_fetch c3_req sample_env c3_parse c3_oracle).1 =
      .ok (WResponse.okText "Webhook handled") := by
  constructor
  · decide
  · decide

/-- C3 as amended: a non-success update response makes that entry's
`generate_and_update_entry` return an `Err`, but both trigger paths
collect the per-entry results into a discarded vector; when no entry
panics, the webhook handler returns HTTP 200 "Webhook handled" even
though some collected per-entry result is an error. -/
theorem C3_amended_batch_errors_discarded (req : WorkerRequest) (env : Env)
    (parse : String → Except String WebhookPayload) (oracle : EntryOracle)
    (payload signature : String) (wp : WebhookPayload)
    (results : List (RResult Unit)) (emsg : String)
    (hm : req.method = Method.post)
    (hb : req.body_text = .ok payload)
    (hh : headers_get req.headers "X-Miniflux-Signature" = some signature)
    (hv : validate_signature env.MINIFLUX_WEBHOOK_SECRET payload signature = true)
    (hp : parse payload = .ok wp)
    (he : wp.event_type = "new_entries")
    (hw : wp.feed.site_url ∈ (config_from_env env).whitelist)
    (hres : (run_batch (config_from_env env) oracle 0 wp.entries).1 = .ok results)
    (hfail : RResult.err emsg ∈ results) :
    main_fetch req env parse oracle =
      (.ok (WResponse.okText "Webhook handled"),
       (run_batch (config_from_env env) oracle 0 wp.entries).2) := by
  simp [main_fetch, hm, hb, hh, hv, hp, he, hw, hres]

/-- Witness for the amended C3: the C3 scenario ends in HTTP 200
"Webhook handled" although its only entry's update failed. -/
theorem C3_amended_batch_errors_discarded_witness :
    main_fetch c3_req sample_env c3_parse c3_oracle =
      (.ok (WResponse.okText "Webhook handled"),
       (run_batch (config_from_env sample_env) c3_oracle 0 c3_webhook.entries).2) :=
  C3_amended_batch_errors_discarded c3_req sample_env c3_parse c3_oracle
    c3_payload_str c3_sig c3_webhook
    [.err "HTTP status client or server error"]
    "HTTP status client or server error"
    rfl rfl rfl (by simp [validate_signature, sample_env, c3_sig])
    rfl rfl (by decide) (by decide) (by decide)

/-! ### C8 -/

/-- Admission control invariant: from a state within the ceiling, every
reachable scheduler state keeps at most `limit` tasks in flight. -/
theorem sched_inflight_le (limit : Nat) (s0 s : SchedState)
    (h0 : s0.inFlight.length ≤ limit)
    (hr : SchedReachable limit s0 s) : s.inFlight.length ≤ limit := by
  induction hr with
  | refl => exact h0
  | step s t hr hs ih =>
    cases hs with
    | launch u rest fl d h => simpa using h
    | complete u p fl d h =>
      exact le_trans ((List.erase_sublist u fl).length_le) ih

/-- C8: for a batch of any size `m > 5`, no state reachable from the
initial scheduler state under the `buffer_unordered` admission-control
model with limit `max_concurrent_tasks` ever has more than 5 entries'
operations in flight. -/
theorem C8_concurrency_ceiling (m : Nat) (s : SchedState)
    (hm : 5 < m)
    (hr : SchedReachable max_concurrent_tasks (sched_init m) s) :
    s.inFlight.length ≤ 5 :=
  sched_inflight_le max_concurrent_tasks (sched_init m) s
    (by simp [sched_init, max_concurrent_tasks]) hr

/-- Witness for C8: a batch of 6 after one admission step has one task in
flight, within the ceiling. -/
theorem C8_concurrency_ceiling_witness :
    (SchedState.mk [1, 2, 3, 4, 5] [0] []).inFlight.length ≤ 5 :=
  C8_concurrency_ceiling 6 ⟨[1, 2, 3, 4, 5], [0], []⟩ (by decide)
    (SchedReachable.step _ _ SchedReachable.refl
      (SchedStep.launch 0 [1, 2, 3, 4, 5] [] [] (by decide)))

end MinifluxAi
